import Mathlib

/-!
Shallow embedding of the Telegram support-bot navigation core
(`keyboard_utils.py`, `state.py`, `navigation_handler.py`, `text_handlers.py`,
`main_bot.py`, `api_client.py`).

All per-user stores in `state.py` are dictionaries keyed by the Telegram user
id, and every handler reads and writes only the calling user's entries, so the
embedding models one user's session as a record (`Session`).  The process-wide
`normalized_button_actions` dictionary is threaded explicitly through every
handler as an association list with most-recent-write-first lookup, which is
observationally equivalent to a Python dict for the `get`/`[k] = v` operations
the source performs.  The remote HTTP service is modelled as an oracle
(`Gateway`) whose fields return `none` exactly when the corresponding
`ApiClient` method returns `None` (any caught request/status error).
-/

namespace TGBot

/-! ## Text normalization (`keyboard_utils.normalize_text`)

The source computes `unicodedata.normalize("NFKC", text.strip().lower())`:
strip first, then lower-case, then NFKC.  The library functions `str.strip`,
`str.lower` and `unicodedata.normalize` are external collaborators; they are
modelled on the fragment of Unicode this program and this development touch:
ASCII, the Cyrillic block used by the labels (which has a plain `+0x20`
lowercase mapping for U+0410..U+042F and Ё→ё), and the mathematical
alphanumeric capitals U+1D400..U+1D419, which have *no* lowercase mapping but
NFKC-decompose to plain Latin capitals.  Code points outside the fragment are
treated as uncased and NFKC-inert, matching the real tables for every code
point that appears in this file. -/

/-- Python `str.strip` whitespace test, on the code points used here. -/
def isPySpace (c : Char) : Bool :=
  c == ' ' || c == '\t' || c == '\n' || c == '\r' ||
    c.toNat == 0xA0 || c.toNat == 0x0B || c.toNat == 0x0C

/-- Python `str.strip` on a list of code points. -/
def pyStripList (cs : List Char) : List Char :=
  ((cs.dropWhile isPySpace).reverse.dropWhile isPySpace).reverse

/-- Python `str.strip`. -/
def pyStrip (s : String) : String := ⟨pyStripList s.data⟩

/-- Python `str.lower` per code point (Unicode simple lowercase mapping on the
modelled fragment; code points with no lowercase mapping — including
U+1D400..U+1D419 — are returned unchanged, as in the Unicode table). -/
def pyLower (c : Char) : Char :=
  if 0x41 ≤ c.toNat && c.toNat ≤ 0x5A then Char.ofNat (c.toNat + 0x20)
  else if 0x410 ≤ c.toNat && c.toNat ≤ 0x42F then Char.ofNat (c.toNat + 0x20)
  else if c.toNat == 0x401 then Char.ofNat 0x451
  else c

/-- Python `str.lower`. -/
def pyLowerStr (s : String) : String := ⟨s.data.map pyLower⟩

/-- NFKC on a single code point of the modelled fragment: the mathematical
bold capitals U+1D400..U+1D419 compatibility-decompose to the Latin capitals
A..Z; every other code point appearing in this development is NFKC-inert. -/
def nfkcChar (c : Char) : List Char :=
  if 0x1D400 ≤ c.toNat && c.toNat ≤ 0x1D419 then
    [Char.ofNat (c.toNat - 0x1D400 + 0x41)]
  else [c]

/-- Embeds `unicodedata.normalize("NFKC", ·)` on the modelled fragment (no combining
sequences occur, so per-code-point decomposition is exact). -/
def nfkcStr (s : String) : String := ⟨s.data.flatMap nfkcChar⟩

/-- Embeds `keyboard_utils.normalize_text`: the source order is strip, then
lower-case, then NFKC. -/
def normalize_text (text : String) : String :=
  nfkcStr (pyLowerStr (pyStrip text))

/-- Modelled from the spec: `normalize(text)` as the spec's sentence orders
it — "Unicode-normalize (compatibility form), trim, lower-case", i.e. NFKC
first, then strip, then lower-case.  Kept only to compare with the source's
`normalize_text` above. -/
def spec_normalize (text : String) : String :=
  pyLowerStr (pyStrip (nfkcStr text))

/-! ## Data model -/

/-- Navigation actions and history-stack entries.  The Python source uses
untyped values — an `int` node id, the strings `"support_menu"`,
`"new_conversation"`, `"list_conversations"`, `"back"`, `"home"`, or a
`"ticket:N"` string — both as values of the label index and as stack
entries; this closed type covers exactly those values. -/
inductive Action where
  | node (id : Nat)
  | supportMenu
  | newConversation
  | listConversations
  | ticket (id : Nat)
  | back
  | home
deriving Repr, DecidableEq

/-- One button of a content node: `{ text, next_node_id }` (either key may be
missing in the JSON). -/
structure Button where
  text : Option String
  next_node_id : Option Nat
deriving Repr, DecidableEq

/-- A content node as the handlers read it (`.get` with defaults): absent
`buttons`/`images` behave as the empty list, absent `title`/`text` as their
defaults. -/
structure Node where
  id : Nat
  title : Option String
  text : Option String
  images : List String
  buttons : List Button
deriving Repr, DecidableEq

/-- Response of `GET node/<id>`: a dict that may or may not carry a `node`. -/
structure NodeResponse where
  node : Option Node
deriving Repr, DecidableEq

/-- A ticket as listed by the gateway. -/
structure Ticket where
  id : Nat
  conversation_name : Option String
deriving Repr, DecidableEq

/-- A ticket message. -/
structure Msg where
  sender_id : Nat
  created_at : String
  text : String
deriving Repr, DecidableEq

/-- Login response: `token` key present or not. -/
structure LoginResp where
  token : Option String
deriving Repr, DecidableEq

/-- Ticket-creation response: `ticket_id` key present or not. -/
structure CreateResp where
  ticket_id : Option Nat
deriving Repr, DecidableEq

/-- Message-send response: optional `status` field. -/
structure SendResp where
  status : Option String
deriving Repr, DecidableEq

/-- The remote content & ticket gateway (`ApiClient`), as an oracle: each
field returns `none` exactly when the corresponding method catches an
`httpx` error (network failure or non-success status) and returns `None`. -/
structure Gateway where
  token : Option String
  login : String → String → Nat → Option LoginResp
  getRootNode : Option Node
  getContentNode : Nat → Option NodeResponse
  getUserTickets : Option (List Ticket)
  createTicket : Nat → Bool → String → Option CreateResp
  getTicketMessages : Nat → Option (List Msg)
  sendMessage : Nat → String → Option SendResp

/-- The process-wide `normalized_button_actions` dict, as an association list
whose head is the most recent write; `List.lookup` therefore returns the last
value written for a key, exactly like a Python dict read. -/
abbrev Index := List (String × Action)

/-- Embeds `normalized_button_actions[key] = value`. -/
def idxSet (idx : Index) (key : String) (value : Action) : Index :=
  (key, value) :: idx

/-- A reply-keyboard markup: rows of button labels.  Each
`ReplyKeyboardMarkup.add(*buttons)` call in the source appends one row (at
most two buttons are ever passed, below aiogram's default row width). -/
abbrev KB := List (List String)

/-- One user's slice of the per-user stores in `state.py`.  An absent
dictionary entry is indistinguishable from the zero value in every operation
the source performs (`in`, `.get`, `.setdefault`, `.pop(·, None)`,
`.discard`), so absence is modelled as the zero value. -/
structure Session where
  navStack : List Action
  waitingForMessage : Bool
  activeTicketId : Option Nat
  creatingConversation : Bool
  awaitingUsername : Bool
  awaitingPassword : Option String
deriving Repr, DecidableEq

/-- The fresh (never-seen) user session. -/
def Session.initial : Session :=
  ⟨[], false, none, false, false, none⟩

/-- One outbound chat-transport effect. -/
inductive Out where
  | text (s : String)
  | textMarkup (s : String) (kb : KB)
  | photo (url : String)
deriving Repr, DecidableEq

/-- Result of running a handler: the user's session, the process-wide label
index, and the outbound messages, in order. -/
structure Step where
  session : Session
  idx : Index
  outs : List Out
deriving Repr, DecidableEq

/-! ## Keyboard builders (`keyboard_utils.py`) -/

/-- The button text used everywhere a button is displayed or indexed. -/
def btnText (b : Button) : String := b.text.getD "Неизвестно"

/-- The `for i, button_data in enumerate(children_buttons)` loop of
`make_keyboard`, as a recursion over the remaining buttons; `n` is the length
of the full list and `i` the current index.  Buttons without `next_node_id`
are skipped; a full pair, or reaching the last index with a valid button,
flushes the pending row.  A row still pending when the loop ends is dropped
(the source never flushes it). -/
def kbLoop (n : Nat) : List Button → Nat → List String → List (List String) →
    Index → List (List String) × List String × Index
  | [], _, cur, rows, idx => (rows, cur, idx)
  | bd :: rest, i, cur, rows, idx =>
    let text := btnText bd
    match bd.next_node_id with
    | none => kbLoop n rest (i + 1) cur rows idx
    | some nid =>
      let cur' := cur ++ [text]
      let idx' := idxSet idx (normalize_text text) (Action.node nid)
      if cur'.length == 2 || i == n - 1 then
        kbLoop n rest (i + 1) [] (rows ++ [cur']) idx'
      else
        kbLoop n rest (i + 1) cur' rows idx'

def support_button_text : String := "✉ Написать в поддержку"
def back_button_text : String := "⬅️ Назад"
def home_button_text : String := "🏠 В начало"

/-- Embeds `keyboard_utils.make_keyboard` (the `current_node_id` parameter is unused
in the source as well). -/
def make_keyboard (current_node_id : Nat) (current_node_data : Node)
    (is_root : Bool) (idx : Index) : KB × Index :=
  let res := kbLoop current_node_data.buttons.length
    current_node_data.buttons 0 [] [] idx
  let rows := res.1 ++ [[support_button_text]]
  let idx1 := idxSet res.2.2 (normalize_text support_button_text)
    Action.supportMenu
  if is_root then (rows, idx1)
  else
    let idx2 := idxSet (idxSet idx1 (normalize_text back_button_text)
      Action.back) (normalize_text home_button_text) Action.home
    (rows ++ [[back_button_text, home_button_text]], idx2)

/-- Embeds `keyboard_utils.build_ticket_chat_keyboard`. -/
def build_ticket_chat_keyboard (idx : Index) : KB × Index :=
  ([[back_button_text, home_button_text]],
   idxSet (idxSet idx (normalize_text back_button_text) Action.back)
     (normalize_text home_button_text) Action.home)

/-- Embeds `keyboard_utils.build_support_menu_keyboard`. -/
def build_support_menu_keyboard (idx : Index) : KB × Index :=
  ([["➕ Новая беседа"], ["📂 Мои беседы"],
    [back_button_text, home_button_text]],
   idxSet (idxSet (idxSet (idxSet idx
     (normalize_text "➕ Новая беседа") Action.newConversation)
     (normalize_text "📂 Мои беседы") Action.listConversations)
     (normalize_text back_button_text) Action.back)
     (normalize_text home_button_text) Action.home)

/-- The button label of one ticket in `build_user_tickets_keyboard`. -/
def ticketBtnText (t : Ticket) : String :=
  "💬 " ++ t.conversation_name.getD ("Беседа #" ++ toString t.id)

/-- Embeds `keyboard_utils.build_user_tickets_keyboard`. -/
def build_user_tickets_keyboard (tickets : List Ticket) (idx : Index) :
    KB × Index :=
  let body := tickets.foldl
    (fun (acc : KB × Index) t =>
      (acc.1 ++ [[ticketBtnText t]],
       idxSet acc.2 (normalize_text (ticketBtnText t)) (Action.ticket t.id)))
    ([], idx)
  (body.1 ++ [[back_button_text, home_button_text]],
   idxSet (idxSet body.2 (normalize_text back_button_text) Action.back)
     (normalize_text home_button_text) Action.home)

/-! ## Navigation engine (`navigation_handler.py`) -/

/-- The shared rendering tail of `show_main_menu` once root-node data is at
hand: build the root keyboard, send every image (per-image transport failures
are swallowed in the source, so every image appears as a send), then the text
with the markup. -/
def renderMainMenu (root_node_data : Node) (s : Session) (idx : Index) :
    Step :=
  let mk := make_keyboard root_node_data.id root_node_data true idx
  ⟨s, mk.2,
   root_node_data.images.map Out.photo ++
     [Out.textMarkup (root_node_data.text.getD "Выберите раздел:") mk.1]⟩

/-- Embeds `navigation_handler.show_main_menu`. -/
def show_main_menu (g : Gateway) (root_node_data : Option Node) (s : Session)
    (idx : Index) : Step :=
  match root_node_data with
  | some d => renderMainMenu d s idx
  | none =>
    if g.token = none then
      ⟨s, idx,
       [Out.text "Ошибка: пользователь не аутентифицирован. Попробуйте /start."]⟩
    else
      match g.getRootNode with
      | none =>
        ⟨s, idx,
         [Out.text "Не удалось загрузить главное меню. Возможно, проблема с аутентификацией."]⟩
      | some d => renderMainMenu d {s with navStack := [Action.node d.id]} idx

/-- Embeds `navigation_handler.reset_to_root_menu`. -/
def reset_to_root_menu (g : Gateway) (s : Session) (idx : Index) : Step :=
  match g.getRootNode with
  | some d =>
    show_main_menu g (some d) {s with navStack := [Action.node d.id]} idx
  | none => ⟨s, idx, [Out.text "Не удалось загрузить главное меню."]⟩

/-- Embeds `navigation_handler.open_support_menu`. -/
def open_support_menu (back : Bool) (s : Session) (idx : Index) : Step :=
  let s' := if !back then
      {s with navStack := s.navStack ++ [Action.supportMenu]}
    else s
  let bk := build_support_menu_keyboard idx
  ⟨s', bk.2, [Out.textMarkup "Выберите действие:" bk.1]⟩

/-- Embeds `navigation_handler.request_new_conversation`. -/
def request_new_conversation (s : Session) (idx : Index) : Step :=
  ⟨{s with creatingConversation := true}, idx,
   [Out.text "Введите название новой беседы:"]⟩

/-- Embeds `navigation_handler.show_user_conversations`.  A `None` ticket list (a
failed gateway call) and an empty list are indistinguishable to the source's
`if tickets:` test: both render the empty-state message. -/
def show_user_conversations (g : Gateway) (back : Bool) (s : Session)
    (idx : Index) : Step :=
  let s' := if !back then
      {s with navStack := s.navStack ++ [Action.listConversations]}
    else s
  match g.getUserTickets with
  | some (t :: ts) =>
    let bk := build_user_tickets_keyboard (t :: ts) idx
    ⟨s', bk.2, [Out.textMarkup "Ваши беседы:" bk.1]⟩
  | _ => ⟨s', idx, [Out.text "У вас нет бесед."]⟩

/-- The transcript line for one message in `show_ticket_messages`. -/
def fmtMsg (uid : Nat) (m : Msg) : Out :=
  Out.text ("🕒 " ++ m.created_at ++ "\n👤 " ++
    (if m.sender_id == uid then "Вы" else "Менеджер") ++ ":\n" ++ m.text)

/-- Embeds `navigation_handler.show_ticket_messages` for the already-parsed ticket id
(the source receives the `"ticket:N"` action string and parses `N` out).  A
`None` message list (failed call) and an empty list both render the
empty-transcript message.  `activeTicketId` and `waitingForMessage` are set
unconditionally, after the optional stack push. -/
def show_ticket_messages (g : Gateway) (uid : Nat) (ticket_id : Nat)
    (back : Bool) (s : Session) (idx : Index) : Step :=
  let messages := g.getTicketMessages ticket_id
  let s1 := if !back then
      {s with navStack := s.navStack ++ [Action.ticket ticket_id]}
    else s
  let outs1 :=
    match messages with
    | some (m :: ms) =>
      Out.text ("💬 Сообщения в беседе #" ++ toString ticket_id ++ ":") ::
        (m :: ms).map (fmtMsg uid)
    | _ => [Out.text "Беседа пуста."]
  let s2 := {s1 with activeTicketId := some ticket_id,
                     waitingForMessage := true}
  let bk := build_ticket_chat_keyboard idx
  ⟨s2, bk.2, outs1 ++ [Out.textMarkup "✏️ Напишите новое сообщение:" bk.1]⟩

/-- Embeds `navigation_handler.navigate_content_node`.  `is_root` is computed against
the stack *before* any push, as in the source.  The push happens only for a
node with child buttons, when not replaying a back step and the stack top is
not already this id. -/
def navigate_content_node (g : Gateway) (node_id : Nat) (back : Bool)
    (s : Session) (idx : Index) : Step :=
  let node_data := (g.getContentNode node_id).bind (fun r => r.node)
  match node_data with
  | none =>
    ⟨s, idx,
     [Out.text "Не удалось найти информацию по этому разделу. Попробуйте позже."]⟩
  | some nd =>
    let is_root := s.navStack == [Action.node node_id]
    if !nd.buttons.isEmpty then
      let s' :=
        if !back &&
            (s.navStack.isEmpty ||
              s.navStack.getLast? != some (Action.node node_id)) then
          {s with navStack := s.navStack ++ [Action.node node_id]}
        else s
      let mk := make_keyboard node_id nd is_root idx
      ⟨s', mk.2,
       nd.images.map Out.photo ++
         [Out.textMarkup (nd.text.getD "Раздел") mk.1]⟩
    else
      ⟨s, idx,
       [Out.text ("📌 " ++ nd.title.getD "" ++ "\n\n" ++ nd.text.getD "")]⟩

/-- Embeds `navigation_handler.handle_navigation_actions`.  The source's final
"unknown navigation action" branch is unreachable over the closed `Action`
type, whose constructors cover exactly the values the source ever stores in
the label index or on the stack.  In the `back` branch the source passes the
raw stack entry to `navigate_content_node`; for a non-`int` entry the
gateway's URL cannot name a node, the fetch fails, and the unavailable
message is rendered with no further mutation — embedded directly as that
outcome. -/
def handle_navigation_actions (g : Gateway) (uid : Nat) (action : Action)
    (back : Bool) (s : Session) (idx : Index) : Step :=
  match action with
  | Action.supportMenu => open_support_menu back s idx
  | Action.newConversation => request_new_conversation s idx
  | Action.listConversations => show_user_conversations g back s idx
  | Action.ticket tid => show_ticket_messages g uid tid back s idx
  | Action.back =>
    if s.navStack.length > 1 then
      let stack' := s.navStack.dropLast
      let s' := {s with navStack := stack'}
      match stack'.getLastD (Action.node 0) with
      | Action.node n => navigate_content_node g n true s' idx
      | _ =>
        ⟨s', idx,
         [Out.text "Не удалось найти информацию по этому разделу. Попробуйте позже."]⟩
    else reset_to_root_menu g s idx
  | Action.home => reset_to_root_menu g s idx
  | Action.node n => navigate_content_node g n back s idx

/-! ## Input-mode router and flow handlers (`text_handlers.py`,
`main_bot.py`) -/

/-- Embeds `text_handlers.handle_username_input` (the branch guard guarantees the
`awaiting_username` entry exists; `pop` clears it). -/
def handle_username_input (text : String) (s : Session) (idx : Index) :
    Step :=
  ⟨{s with awaitingUsername := false,
           awaitingPassword := some (pyStrip text)}, idx,
   [Out.text "Введите ваш пароль:"]⟩

/-- Embeds `text_handlers.handle_password_input` (the branch guard guarantees the
`awaiting_password` entry exists; `pop` clears it and yields the stored
username). -/
def handle_password_input (g : Gateway) (text : String) (uid : Nat)
    (s : Session) (idx : Index) : Step :=
  let username := s.awaitingPassword.getD ""
  let password := pyStrip text
  let s0 := {s with awaitingPassword := none}
  match g.login username password uid with
  | some r =>
    if r.token.isSome then reset_to_root_menu g s0 idx
    else
      ⟨s0, idx, [Out.text "Неверные учетные данные. Попробуйте снова с /start."]⟩
  | none =>
    ⟨s0, idx, [Out.text "Неверные учетные данные. Попробуйте снова с /start."]⟩

/-- Embeds `text_handlers.handle_back_action`: with more than one stack entry, pop,
clear the message-waiting flag and the active ticket id, and replay the new
top entry with `back=True`; otherwise clear both and reset to root. -/
def handle_back_action (g : Gateway) (uid : Nat) (s : Session) (idx : Index) :
    Step :=
  if s.navStack.length > 1 then
    let stack' := s.navStack.dropLast
    let previous_action := stack'.getLastD (Action.node 0)
    let s' := {s with navStack := stack', waitingForMessage := false,
                      activeTicketId := none}
    handle_navigation_actions g uid previous_action true s' idx
  else
    reset_to_root_menu g
      {s with waitingForMessage := false, activeTicketId := none} idx

/-- Embeds `text_handlers.handle_home_action`. -/
def handle_home_action (g : Gateway) (s : Session) (idx : Index) : Step :=
  reset_to_root_menu g
    {s with waitingForMessage := false, activeTicketId := none} idx

/-- Embeds `text_handlers.handle_conversation_creation`. -/
def handle_conversation_creation (g : Gateway) (text : String) (uid : Nat)
    (s : Session) (idx : Index) : Step :=
  let title := pyStrip text
  let ticket_response := g.createTicket uid true title
  let s0 := {s with creatingConversation := false}
  match ticket_response with
  | some r =>
    if r.ticket_id.isSome then
      let tickets := g.getUserTickets
      let s1 := {s0 with navStack := s0.navStack ++ [Action.listConversations]}
      let bk := build_user_tickets_keyboard (tickets.getD []) idx
      ⟨s1, bk.2,
       [Out.textMarkup ("✅ Беседа «" ++ title ++
          "» создана. Выберите её из списка, чтобы продолжить.") bk.1]⟩
    else ⟨s0, idx, [Out.text "Не удалось создать беседу. Попробуйте позже."]⟩
  | none => ⟨s0, idx, [Out.text "Не удалось создать беседу. Попробуйте позже."]⟩

/-- Python truthiness of `Optional[int]`: `None` and `0` are both falsy. -/
def pyTruthyOptNat : Option Nat → Bool
  | some t => t != 0
  | none => false

/-- Embeds `text_handlers.handle_send_message`.  The source tests `if ticket_id:` on
the `Optional[int]`, so an armed ticket id of `0` takes the fallback branch
exactly like a missing one. -/
def handle_send_message (g : Gateway) (text : String) (s : Session)
    (idx : Index) : Step :=
  let ticket_id := s.activeTicketId
  if pyTruthyOptNat ticket_id then
    match g.sendMessage (ticket_id.getD 0) text with
    | some r =>
      if r.status == some "success" then
        let bk := build_ticket_chat_keyboard idx
        ⟨s, bk.2, [Out.textMarkup "✅ Сообщение отправлено." bk.1]⟩
      else
        ⟨s, idx, [Out.text "Не удалось отправить сообщение. Попробуйте позже."]⟩
    | none =>
      ⟨s, idx, [Out.text "Не удалось отправить сообщение. Попробуйте позже."]⟩
  else ⟨s, idx, [Out.text "Нет выбранной беседы. Выберите её из списка."]⟩

/-- Embeds `text_handlers.handle_navigation_or_fallback`: resolve the normalized
text in the process-wide index; unknown text renders the fallback message. -/
def handle_navigation_or_fallback (g : Gateway) (uid : Nat)
    (user_text : String) (s : Session) (idx : Index) : Step :=
  match List.lookup user_text idx with
  | none => ⟨s, idx, [Out.text "Неизвестная команда. Используйте кнопки."]⟩
  | some action => handle_navigation_actions g uid action false s idx

/-- Embeds `text_handlers.text_message_handler`: the input-mode router, in the
source's fixed branch order. -/
def text_message_handler (g : Gateway) (uid : Nat) (text : String)
    (s : Session) (idx : Index) : Step :=
  let user_text := normalize_text text
  if s.awaitingUsername then handle_username_input text s idx
  else if s.awaitingPassword.isSome then
    handle_password_input g text uid s idx
  else if user_text == normalize_text back_button_text then
    handle_back_action g uid s idx
  else if user_text == normalize_text home_button_text then
    handle_home_action g s idx
  else if s.creatingConversation then
    handle_conversation_creation g text uid s idx
  else if s.waitingForMessage then handle_send_message g text s idx
  else handle_navigation_or_fallback g uid user_text s idx

/-- Embeds `main_bot.start_handler`: the `/start` trigger sets `awaiting_username`
and prompts; it touches no other per-user state. -/
def start_handler (s : Session) (idx : Index) : Step :=
  ⟨{s with awaitingUsername := true}, idx,
   [Out.text "Введите ваше имя пользователя:"]⟩

/-! ## Derived notions used in the statements -/

/-- The action resolver as the router applies it: normalize the inbound text
and look it up in the process-wide index. -/
def resolve (idx : Index) (text : String) : Option Action :=
  List.lookup (normalize_text text) idx

/-- Tests whether `pat` is a prefix of `s` (code-point lists). -/
def listHasPre (pat : List Char) : List Char → Bool
  | s =>
    match pat, s with
    | [], _ => true
    | _ :: _, [] => false
    | p :: ps, c :: cs => p == c && listHasPre ps cs

/-- Tests whether `pat` occurs inside `s` (code-point lists). -/
def listHasSub (pat : List Char) : List Char → Bool
  | [] => listHasPre pat []
  | c :: cs => listHasPre pat (c :: cs) || listHasSub pat cs

/-- An outbound effect counts as a generic "try later" message when its text
contains the phrase the source uses for every such message. -/
def isTryLaterOut : Out → Bool
  | Out.text s => listHasSub "Попробуйте позже".data s.data
  | Out.textMarkup s _ => listHasSub "Попробуйте позже".data s.data
  | Out.photo _ => false

/-- Grouping a list two per row with at most one dangling last element: the
layout the spec describes for the node-button rows. -/
def pairUp {α : Type} : List α → List (List α)
  | [] => []
  | [a] => [[a]]
  | a :: b :: rest => [a, b] :: pairUp rest

/-- The index writes the `make_keyboard` button loop performs, in order. -/
def loopIdxWrites (bs : List Button) (idx : Index) : Index :=
  bs.foldl
    (fun acc b =>
      match b.next_node_id with
      | some nid => idxSet acc (normalize_text (btnText b)) (Action.node nid)
      | none => acc)
    idx

/-- The invariant of claim C10: a user waiting for a ticket reply always has
an active ticket id recorded. -/
def ticketInv (s : Session) : Prop :=
  s.waitingForMessage = true → s.activeTicketId.isSome = true

/-! ## Concrete instances used by witnesses and counterexamples -/

/-- A gateway on which every call fails (every `ApiClient` method catches its
error and returns `None`). -/
def gNone : Gateway :=
  ⟨none, fun _ _ _ => none, none, fun _ => none, none, fun _ _ _ => none,
   fun _ => none, fun _ _ => none⟩

/-- Root node of a small three-node catalog: one button to node 2. -/
def rootNode : Node := ⟨1, none, some "X1", [], [⟨some "Меню", some 2⟩]⟩

/-- Interior menu node 2: one button listing leaf 3. -/
def menuNode : Node := ⟨2, none, some "X2", [], [⟨some "Лист", some 3⟩]⟩

/-- Leaf node 3: no child buttons. -/
def leafNode : Node := ⟨3, some "T3", some "X3", [], []⟩

/-- A healthy gateway serving the three-node catalog. -/
def gTree : Gateway :=
  ⟨some "tok", fun _ _ _ => some ⟨some "tok"⟩, some rootNode,
   fun n =>
     if n == 1 then some ⟨some rootNode⟩
     else if n == 2 then some ⟨some menuNode⟩
     else if n == 3 then some ⟨some leafNode⟩
     else none,
   some [⟨42, some "Billing"⟩], fun _ _ _ => some ⟨some 42⟩,
   fun _ => some [], fun _ _ => some ⟨some "success"⟩⟩

/-- A session at the root menu. -/
def sRootOnly : Session := ⟨[Action.node 1], false, none, false, false, none⟩

/-- A session that navigated root → node 2 (the stack top is the menu whose
keyboard lists leaf 3). -/
def sAtMenu : Session :=
  ⟨[Action.node 1, Action.node 2], false, none, false, false, none⟩

/-- A session with a stored username awaiting its password. -/
def sPwdOnly : Session := ⟨[], false, none, false, false, some "u"⟩

/-- A session where `/start` was sent again while a password was pending:
both `awaiting_username` and `awaiting_password` are set. -/
def sBothFlags : Session := ⟨[], false, none, false, true, some "u"⟩

/-- The session produced by opening ticket 0 from a fresh session. -/
def sTicket0 : Session :=
  (show_ticket_messages gNone 7 0 false Session.initial []).session

/-- A node whose last button has no `next_node_id`: the pending row holding
button "A" is never flushed. -/
def dropNode : Node :=
  ⟨9, none, none, [], [⟨some "A", some 1⟩, ⟨some "B", none⟩]⟩

/-- A node with two buttons sharing a normalized label. -/
def dupNode : Node :=
  ⟨9, none, none, [], [⟨some "X", some 1⟩, ⟨some "X", some 2⟩]⟩

/-- A node whose button label collides with the fixed support label. -/
def clashNode : Node :=
  ⟨9, none, none, [], [⟨some support_button_text, some 5⟩]⟩

/-- A well-formed node: three buttons, all with next ids, distinct labels. -/
def niceNode : Node :=
  ⟨4, none, some "Разделы", [],
   [⟨some "Кнопка А", some 10⟩, ⟨some "Кнопка Б", some 20⟩,
    ⟨some "Кнопка В", some 30⟩]⟩

/-! # Theorems -/

/-! ## Helper lemmas: the history stack never shrinks to empty -/

theorem resetRoot_stack_ne (g : Gateway) (s : Session) (idx : Index)
    (h : s.navStack ≠ []) :
    (reset_to_root_menu g s idx).session.navStack ≠ [] := by
  unfold reset_to_root_menu show_main_menu renderMainMenu
  cases hg : g.getRootNode with
  | none => simpa using h
  | some d => simp

theorem resetRoot_flags (g : Gateway) (s : Session) (idx : Index) :
    (reset_to_root_menu g s idx).session.waitingForMessage =
        s.waitingForMessage ∧
      (reset_to_root_menu g s idx).session.activeTicketId = s.activeTicketId := by
  unfold reset_to_root_menu show_main_menu renderMainMenu
  cases hg : g.getRootNode with
  | none => exact ⟨rfl, rfl⟩
  | some d => simp

theorem navigate_stack_ne (g : Gateway) (node_id : Nat) (back : Bool)
    (s : Session) (idx : Index) (h : s.navStack ≠ []) :
    (navigate_content_node g node_id back s idx).session.navStack ≠ [] := by
  unfold navigate_content_node
  cases hnd : (g.getContentNode node_id).bind (fun r => r.node) with
  | none => simpa using h
  | some nd =>
    by_cases hb : nd.buttons.isEmpty = true
    · simp [hb, h]
    · simp only [Bool.not_eq_true] at hb
      simp only [hb, Bool.not_false, if_true]
      split <;> simp [h]

theorem navigate_flags (g : Gateway) (node_id : Nat) (back : Bool)
    (s : Session) (idx : Index) :
    (navigate_content_node g node_id back s idx).session.waitingForMessage =
        s.waitingForMessage ∧
      (navigate_content_node g node_id back s idx).session.activeTicketId =
        s.activeTicketId := by
  unfold navigate_content_node
  cases hnd : (g.getContentNode node_id).bind (fun r => r.node) with
  | none => exact ⟨rfl, rfl⟩
  | some nd =>
    by_cases hb : nd.buttons.isEmpty = true
    · simp [hb]
    · simp only [Bool.not_eq_true] at hb
      simp only [hb, Bool.not_false, if_true]
      split <;> simp

theorem navActions_stack_ne (g : Gateway) (uid : Nat) (action : Action)
    (back : Bool) (s : Session) (idx : Index) (h : s.navStack ≠ []) :
    (handle_navigation_actions g uid action back s idx).session.navStack ≠ [] := by
  cases action with
  | supportMenu =>
    unfold handle_navigation_actions open_support_menu
    cases back <;> simp [h]
  | newConversation =>
    unfold handle_navigation_actions request_new_conversation
    simpa using h
  | listConversations =>
    unfold handle_navigation_actions show_user_conversations
    cases hg : g.getUserTickets with
    | none => cases back <;> simp [h]
    | some l => cases l <;> cases back <;> simp [h]
  | ticket tid =>
    unfold handle_navigation_actions show_ticket_messages
    cases back <;> simp [h]
  | back =>
    unfold handle_navigation_actions
    by_cases hlen : s.navStack.length > 1
    · have hd : s.navStack.dropLast ≠ [] := by
        have := s.navStack.length_dropLast
        rw [← List.length_pos_iff_ne_nil]
        omega
      simp only [hlen, if_true]
      cases hprev : s.navStack.dropLast.getLastD (Action.node 0) with
      | node n => exact navigate_stack_ne g n true _ idx hd
      | _ => simpa using hd
    · simp only [hlen, if_false]
      exact resetRoot_stack_ne g s idx h
  | home =>
    unfold handle_navigation_actions
    exact resetRoot_stack_ne g s idx h
  | node n => exact navigate_stack_ne g n back s idx h

theorem backAction_stack_ne (g : Gateway) (uid : Nat) (s : Session)
    (idx : Index) (h : s.navStack ≠ []) :
    (handle_back_action g uid s idx).session.navStack ≠ [] := by
  unfold handle_back_action
  by_cases hlen : s.navStack.length > 1
  · have hd : s.navStack.dropLast ≠ [] := by
      have := s.navStack.length_dropLast
      rw [← List.length_pos_iff_ne_nil]
      omega
    simp only [hlen, if_true]
    exact navActions_stack_ne g uid _ true _ idx hd
  · simp only [hlen, if_false]
    exact resetRoot_stack_ne g _ idx h

theorem convCreation_stack_ne (g : Gateway) (text : String) (uid : Nat)
    (s : Session) (idx : Index) (h : s.navStack ≠ []) :
    (handle_conversation_creation g text uid s idx).session.navStack ≠ [] := by
  simp only [handle_conversation_creation]
  cases hr : g.createTicket uid true (pyStrip text) with
  | none => simpa using h
  | some r =>
    by_cases ht : r.ticket_id.isSome = true
    · simp [ht]
    · simp only [Bool.not_eq_true] at ht
      simp only [ht]
      simpa using h

theorem sendMessage_session (g : Gateway) (text : String) (s : Session)
    (idx : Index) :
    (handle_send_message g text s idx).session = s := by
  unfold handle_send_message
  by_cases hp : pyTruthyOptNat s.activeTicketId = true
  · simp only [hp, if_true]
    cases hr : g.sendMessage (s.activeTicketId.getD 0) text with
    | none => rfl
    | some r =>
      by_cases hs : (r.status == some "success") = true
      · simp [hs]
      · simp only [Bool.not_eq_true] at hs
        simp [hs]
  · simp only [Bool.not_eq_true] at hp
    simp [hp]

theorem passwordInput_stack_ne (g : Gateway) (text : String) (uid : Nat)
    (s : Session) (idx : Index) (h : s.navStack ≠ []) :
    (handle_password_input g text uid s idx).session.navStack ≠ [] := by
  simp only [handle_password_input]
  cases hr : g.login (s.awaitingPassword.getD "") (pyStrip text) uid with
  | none => simpa using h
  | some r =>
    by_cases ht : r.token.isSome = true
    · simp only [ht, if_true]
      exact resetRoot_stack_ne g _ idx (by simpa using h)
    · simp only [Bool.not_eq_true] at ht
      simp only [ht, Bool.false_eq_true, if_false]
      simpa using h

theorem router_stack_ne (g : Gateway) (uid : Nat) (text : String)
    (s : Session) (idx : Index) (h : s.navStack ≠ []) :
    (text_message_handler g uid text s idx).session.navStack ≠ [] := by
  unfold text_message_handler
  by_cases h1 : s.awaitingUsername = true
  · simp only [h1, if_true]
    unfold handle_username_input
    simpa using h
  · simp only [Bool.not_eq_true] at h1
    simp only [h1, Bool.false_eq_true, if_false]
    by_cases h2 : s.awaitingPassword.isSome = true
    · simp only [h2, if_true]
      exact passwordInput_stack_ne g text uid s idx h
    · simp only [Bool.not_eq_true] at h2
      simp only [h2, Bool.false_eq_true, if_false]
      by_cases h3 : (normalize_text text == normalize_text back_button_text) = true
      · simp only [h3, if_true]
        exact backAction_stack_ne g uid s idx h
      · simp only [Bool.not_eq_true] at h3
        simp only [h3, Bool.false_eq_true, if_false]
        by_cases h4 : (normalize_text text == normalize_text home_button_text) = true
        · simp only [h4, if_true]
          unfold handle_home_action
          exact resetRoot_stack_ne g _ idx (by simpa using h)
        · simp only [Bool.not_eq_true] at h4
          simp only [h4, Bool.false_eq_true, if_false]
          by_cases h5 : s.creatingConversation = true
          · simp only [h5, if_true]
            exact convCreation_stack_ne g text uid s idx h
          · simp only [Bool.not_eq_true] at h5
            simp only [h5, Bool.false_eq_true, if_false]
            by_cases h6 : s.waitingForMessage = true
            · simp only [h6, if_true]
              rw [sendMessage_session]
              exact h
            · simp only [Bool.not_eq_true] at h6
              simp only [h6, Bool.false_eq_true, if_false]
              unfold handle_navigation_or_fallback
              cases hl : List.lookup (normalize_text text) idx with
              | none => simpa using h
              | some a => exact navActions_stack_ne g uid a false s idx h

/-! ## Helper lemmas: the waiting-for-message/active-ticket invariant -/

theorem ticketInv_flagsEq {s t : Session}
    (hw : t.waitingForMessage = s.waitingForMessage)
    (ht : t.activeTicketId = s.activeTicketId) (h : ticketInv s) :
    ticketInv t := by
  intro hww
  rw [ht]
  exact h (by rw [← hw]; exact hww)

theorem ticketInv_armed {t : Session} (ht : t.activeTicketId.isSome = true) :
    ticketInv t := fun _ => ht

theorem ticketInv_off {t : Session} (hw : t.waitingForMessage = false) :
    ticketInv t := fun hww => absurd hww (by simp [hw])

theorem navActions_inv (g : Gateway) (uid : Nat) (action : Action)
    (back : Bool) (s : Session) (idx : Index) (h : ticketInv s) :
    ticketInv (handle_navigation_actions g uid action back s idx).session := by
  cases action with
  | supportMenu =>
    unfold handle_navigation_actions open_support_menu
    cases back <;> exact ticketInv_flagsEq rfl rfl h
  | newConversation =>
    exact ticketInv_flagsEq rfl rfl h
  | listConversations =>
    unfold handle_navigation_actions show_user_conversations
    cases hg : g.getUserTickets with
    | none => cases back <;> exact ticketInv_flagsEq rfl rfl h
    | some l => cases l <;> cases back <;> exact ticketInv_flagsEq rfl rfl h
  | ticket tid => exact ticketInv_armed rfl
  | back =>
    unfold handle_navigation_actions
    by_cases hlen : s.navStack.length > 1
    · simp only [hlen, if_true]
      cases hprev : s.navStack.dropLast.getLastD (Action.node 0) with
      | node n =>
        exact ticketInv_flagsEq (navigate_flags g n true _ idx).1
          (navigate_flags g n true _ idx).2 h
      | _ => exact ticketInv_flagsEq rfl rfl h
    · simp only [hlen, if_false]
      exact ticketInv_flagsEq (resetRoot_flags g s idx).1
        (resetRoot_flags g s idx).2 h
  | home =>
    unfold handle_navigation_actions
    exact ticketInv_flagsEq (resetRoot_flags g s idx).1
      (resetRoot_flags g s idx).2 h
  | node n =>
    exact ticketInv_flagsEq (navigate_flags g n back s idx).1
      (navigate_flags g n back s idx).2 h

theorem backAction_inv (g : Gateway) (uid : Nat) (s : Session) (idx : Index) :
    ticketInv (handle_back_action g uid s idx).session := by
  unfold handle_back_action
  by_cases hlen : s.navStack.length > 1
  · simp only [hlen, if_true]
    exact navActions_inv g uid _ true _ idx (ticketInv_off rfl)
  · simp only [hlen, if_false]
    exact ticketInv_flagsEq
      (resetRoot_flags g
        {s with waitingForMessage := false, activeTicketId := none} idx).1
      (resetRoot_flags g
        {s with waitingForMessage := false, activeTicketId := none} idx).2
      (ticketInv_off rfl)

theorem homeAction_inv (g : Gateway) (s : Session) (idx : Index) :
    ticketInv (handle_home_action g s idx).session := by
  unfold handle_home_action
  exact ticketInv_flagsEq
    (resetRoot_flags g
      {s with waitingForMessage := false, activeTicketId := none} idx).1
    (resetRoot_flags g
      {s with waitingForMessage := false, activeTicketId := none} idx).2
    (ticketInv_off rfl)

theorem passwordInput_inv (g : Gateway) (text : String) (uid : Nat)
    (s : Session) (idx : Index) (h : ticketInv s) :
    ticketInv (handle_password_input g text uid s idx).session := by
  simp only [handle_password_input]
  cases hr : g.login (s.awaitingPassword.getD "") (pyStrip text) uid with
  | none => exact ticketInv_flagsEq rfl rfl h
  | some r =>
    by_cases ht : r.token.isSome = true
    · simp only [ht, if_true]
      exact ticketInv_flagsEq
        (resetRoot_flags g {s with awaitingPassword := none} idx).1
        (resetRoot_flags g {s with awaitingPassword := none} idx).2 h
    · simp only [Bool.not_eq_true] at ht
      simp only [ht, Bool.false_eq_true, if_false]
      exact ticketInv_flagsEq rfl rfl h

theorem convCreation_inv (g : Gateway) (text : String) (uid : Nat)
    (s : Session) (idx : Index) (h : ticketInv s) :
    ticketInv (handle_conversation_creation g text uid s idx).session := by
  simp only [handle_conversation_creation]
  cases hr : g.createTicket uid true (pyStrip text) with
  | none => exact ticketInv_flagsEq rfl rfl h
  | some r =>
    by_cases ht : r.ticket_id.isSome = true
    · simp only [ht, if_true]
      exact ticketInv_flagsEq rfl rfl h
    · simp only [Bool.not_eq_true] at ht
      simp only [ht, Bool.false_eq_true, if_false]
      exact ticketInv_flagsEq rfl rfl h

theorem router_inv (g : Gateway) (uid : Nat) (text : String) (s : Session)
    (idx : Index) (h : ticketInv s) :
    ticketInv (text_message_handler g uid text s idx).session := by
  unfold text_message_handler
  by_cases h1 : s.awaitingUsername = true
  · simp only [h1, if_true]
    exact ticketInv_flagsEq rfl rfl h
  · simp only [Bool.not_eq_true] at h1
    simp only [h1, Bool.false_eq_true, if_false]
    by_cases h2 : s.awaitingPassword.isSome = true
    · simp only [h2, if_true]
      exact passwordInput_inv g text uid s idx h
    · simp only [Bool.not_eq_true] at h2
      simp only [h2, Bool.false_eq_true, if_false]
      by_cases h3 : (normalize_text text == normalize_text back_button_text) = true
      · simp only [h3, if_true]
        exact backAction_inv g uid s idx
      · simp only [Bool.not_eq_true] at h3
        simp only [h3, Bool.false_eq_true, if_false]
        by_cases h4 : (normalize_text text == normalize_text home_button_text) = true
        · simp only [h4, if_true]
          exact homeAction_inv g s idx
        · simp only [Bool.not_eq_true] at h4
          simp only [h4, Bool.false_eq_true, if_false]
          by_cases h5 : s.creatingConversation = true
          · simp only [h5, if_true]
            exact convCreation_inv g text uid s idx h
          · simp only [Bool.not_eq_true] at h5
            simp only [h5, Bool.false_eq_true, if_false]
            by_cases h6 : s.waitingForMessage = true
            · simp only [h6, if_true]
              rw [sendMessage_session]
              exact h
            · simp only [Bool.not_eq_true] at h6
              simp only [h6, Bool.false_eq_true, if_false]
              unfold handle_navigation_or_fallback
              cases hl : List.lookup (normalize_text text) idx with
              | none => exact ticketInv_flagsEq rfl rfl h
              | some a => exact navActions_inv g uid a false s idx h

/-- C1: no operation takes a user's nonempty history stack to the empty
stack — neither the text router (covering every handler) nor `/start`; and
applying `Back` with a stack of at most one element behaves exactly like
`Home`, in both the text route (`handle_back_action` versus
`handle_home_action`, which clears `waitingForMessage` and `activeTicketId`)
and the action route (`handle_navigation_actions` on `back` versus `home`);
`Home` itself clears the message-waiting flag and active ticket id and, when
the root fetch succeeds, resets the stack to the single-element root stack. -/
theorem C1_back_from_single_stack_is_home :
    (∀ g uid text s idx, s.navStack ≠ [] →
      (text_message_handler g uid text s idx).session.navStack ≠ []) ∧
    (∀ s idx, s.navStack ≠ [] →
      (start_handler s idx).session.navStack ≠ []) ∧
    (∀ g uid s idx, s.navStack.length ≤ 1 →
      handle_back_action g uid s idx = handle_home_action g s idx) ∧
    (∀ g uid back s idx, s.navStack.length ≤ 1 →
      handle_navigation_actions g uid Action.back back s idx =
        handle_navigation_actions g uid Action.home back s idx) ∧
    (∀ g s idx,
      (handle_home_action g s idx).session.waitingForMessage = false ∧
      (handle_home_action g s idx).session.activeTicketId = none) ∧
    (∀ g root s idx, g.getRootNode = some root →
      (handle_home_action g s idx).session.navStack = [Action.node root.id]) := by
  refine ⟨router_stack_ne, ?_, ?_, ?_, ?_, ?_⟩
  · intro s idx h
    simpa [start_handler] using h
  · intro g uid s idx h
    have hlen : ¬ s.navStack.length > 1 := by omega
    unfold handle_back_action handle_home_action
    simp only [hlen, if_false]
  · intro g uid back s idx h
    have hlen : ¬ s.navStack.length > 1 := by omega
    unfold handle_navigation_actions
    simp only [hlen, if_false]
  · intro g s idx
    have := resetRoot_flags g
      {s with waitingForMessage := false, activeTicketId := none} idx
    unfold handle_home_action
    exact ⟨this.1, this.2⟩
  · intro g root s idx h
    unfold handle_home_action reset_to_root_menu show_main_menu renderMainMenu
    rw [h]

/-- Witness for C1 at a one-element stack and a concrete session. -/
theorem C1_witness :
    sRootOnly.navStack ≠ [] ∧
    (text_message_handler gTree 7 "hi" sRootOnly []).session.navStack ≠ [] ∧
    sRootOnly.navStack.length ≤ 1 ∧
    handle_back_action gTree 7 sRootOnly [] =
      handle_home_action gTree sRootOnly [] ∧
    gTree.getRootNode = some rootNode ∧
    (handle_home_action gTree sRootOnly []).session.navStack =
      [Action.node 1] :=
  ⟨by decide,
   C1_back_from_single_stack_is_home.1 gTree 7 "hi" sRootOnly [] (by decide),
   by decide,
   C1_back_from_single_stack_is_home.2.2.1 gTree 7 sRootOnly [] (by decide),
   rfl,
   C1_back_from_single_stack_is_home.2.2.2.2.2 gTree rootNode sRootOnly [] rfl⟩

/-- C5: for every user and node id, if applying the `NodeId` action gets a
failed fetch or a response with no node, the engine renders the
section-unavailable message and the whole step leaves the session (history
stack, flags, active ticket id) and the label index entirely unchanged — the
failure branch mutates no state. -/
theorem C5_fetch_failure_is_atomic (g : Gateway) (node_id : Nat) (back : Bool)
    (s : Session) (idx : Index)
    (h : g.getContentNode node_id = none ∨
      ∃ r, g.getContentNode node_id = some r ∧ r.node = none) :
    navigate_content_node g node_id back s idx =
      ⟨s, idx,
       [Out.text "Не удалось найти информацию по этому разделу. Попробуйте позже."]⟩ := by
  have hbind : (g.getContentNode node_id).bind (fun r => r.node) = none := by
    rcases h with h | ⟨r, hr, hn⟩
    · rw [h]; rfl
    · rw [hr]; simpa using hn
  unfold navigate_content_node
  rw [hbind]

/-- Witness for C5 at a concrete failing gateway. -/
theorem C5_witness :
    (gNone.getContentNode 5 = none ∨
      ∃ r, gNone.getContentNode 5 = some r ∧ r.node = none) ∧
    navigate_content_node gNone 5 false sAtMenu [] =
      ⟨sAtMenu, [],
       [Out.text "Не удалось найти информацию по этому разделу. Попробуйте позже."]⟩ :=
  ⟨Or.inl rfl, C5_fetch_failure_is_atomic gNone 5 false sAtMenu [] (Or.inl rfl)⟩

/-- C6: for every user, ticket id, gateway behaviour and back-replay flag,
applying the `Ticket(id)` action unconditionally arms message-send mode —
`activeTicketId = id` and `waitingForMessage = true`, including when the
message fetch fails or returns an empty list — and pushes the `Ticket(id)`
marker onto the stack exactly when the back-replay flag is false. -/
theorem C6_ticket_always_arms_send_mode (g : Gateway) (uid ticket_id : Nat)
    (back : Bool) (s : Session) (idx : Index) :
    (show_ticket_messages g uid ticket_id back s idx).session.activeTicketId =
        some ticket_id ∧
    (show_ticket_messages g uid ticket_id back s idx).session.waitingForMessage =
        true ∧
    (show_ticket_messages g uid ticket_id back s idx).session.navStack =
      (if back then s.navStack else s.navStack ++ [Action.ticket ticket_id]) := by
  unfold show_ticket_messages
  cases back <;> simp

/-- C3: `Home` clears `waitingForMessage` and `activeTicketId` and resets the
stack to the single-element root stack, for every prior stack content and
depth (given the root fetch succeeds, which is what makes "the root node id"
exist); re-running `Home` yields the same stack. -/
theorem C3_home_is_idempotent (g : Gateway) (root : Node) (s : Session)
    (idx : Index) (h : g.getRootNode = some root) :
    (handle_home_action g s idx).session.navStack = [Action.node root.id] ∧
    (handle_home_action g s idx).session.waitingForMessage = false ∧
    (handle_home_action g s idx).session.activeTicketId = none ∧
    (handle_home_action g (handle_home_action g s idx).session
        (handle_home_action g s idx).idx).session.navStack =
      [Action.node root.id] := by
  unfold handle_home_action reset_to_root_menu show_main_menu renderMainMenu
  rw [h]
  simp

/-- Witness for C3 at a concrete gateway and a deep, dirty session. -/
theorem C3_witness :
    gTree.getRootNode = some rootNode ∧
    (handle_home_action gTree
        ⟨[Action.node 1, Action.supportMenu, Action.ticket 8], true, some 8,
         false, false, none⟩ []).session.navStack = [Action.node 1] :=
  ⟨rfl,
   (C3_home_is_idempotent gTree rootNode
      ⟨[Action.node 1, Action.supportMenu, Action.ticket 8], true, some 8,
       false, false, none⟩ [] rfl).1⟩

/-- C8 counterexample: the source computes `NFKC(lower(strip(text)))`, not the
claimed `lower(strip(NFKC(text)))`.  At U+1D400 MATHEMATICAL BOLD CAPITAL A —
which has no lowercase mapping but NFKC-decomposes to a plain `A` — the two
orders disagree: the source yields `"A"`, the claimed composition `"a"`. -/
theorem C8_counterexample :
    normalize_text "𝐀" = "A" ∧ spec_normalize "𝐀" = "a" ∧
      normalize_text "𝐀" ≠ spec_normalize "𝐀" := by
  refine ⟨by decide, by decide, by decide⟩

/-- C8 amended: `normalize_text` equals the composition NFKC ∘ lower-case ∘
trim (the source applies trim and lower-case *before* the NFKC step), and two
labels are treated as the same action by the resolver — under every possible
label index — exactly when their normalizations are equal. -/
theorem C8_amended_normalize_composition :
    (∀ s : String, normalize_text s = nfkcStr (pyLowerStr (pyStrip s))) ∧
    (∀ a b : String,
      (∀ idx : Index, resolve idx a = resolve idx b) ↔
        normalize_text a = normalize_text b) := by
  refine ⟨fun s => rfl, fun a b => ⟨fun h => ?_, fun h idx => ?_⟩⟩
  · have h1 := h [(normalize_text a, Action.home)]
    unfold resolve at h1
    simp only [List.lookup] at h1
    rw [beq_self_eq_true] at h1
    by_cases hab : normalize_text b == normalize_text a
    · exact (beq_iff_eq.mp hab).symm
    · rw [Bool.not_eq_true] at hab
      rw [hab] at h1
      simp at h1
  · unfold resolve
    rw [h]

/-- Witness for C8 amended: two labels differing in case and surrounding
whitespace resolve identically, hence normalize identically. -/
theorem C8_witness :
    normalize_text "ABC" = normalize_text "  abc  " :=
  (C8_amended_normalize_composition.2 "ABC" "  abc  ").mp
    (fun idx => by
      unfold resolve
      exact congrArg (fun k => List.lookup k idx) (by decide))

/-- C2 counterexample: a user can have `awaiting_password` set while
`awaiting_username` is also set (sending `/start` again while a password is
pending re-sets `awaiting_username` without clearing `awaiting_password`).
Such a user's text — here the literal home label — is consumed as a username,
not as a password attempt. -/
theorem C2_counterexample :
    sBothFlags.awaitingPassword = some "u" ∧
      text_message_handler gNone 7 "🏠 В начало" sBothFlags [] ≠
        handle_password_input gNone "🏠 В начало" 7 sBothFlags [] :=
  ⟨rfl, by decide⟩

/-- C2 amended: the router evaluates inbound text in the fixed priority order
awaiting-username, awaiting-password, back label, home label,
creating-conversation, waiting-for-message, then action resolution; in
particular, for every user with `awaitingPassword` set *and not awaiting a
username*, any text — including text normalizing to the home or back label —
is consumed as a password attempt and never as a navigation action. -/
theorem C2_amended_router_priority :
    (∀ g uid text s idx, s.awaitingUsername = true →
      text_message_handler g uid text s idx =
        handle_username_input text s idx) ∧
    (∀ g uid text s idx u, s.awaitingUsername = false →
      s.awaitingPassword = some u →
      text_message_handler g uid text s idx =
        handle_password_input g text uid s idx) ∧
    (∀ g uid text s idx, s.awaitingUsername = false →
      s.awaitingPassword = none →
      normalize_text text = normalize_text back_button_text →
      text_message_handler g uid text s idx = handle_back_action g uid s idx) ∧
    (∀ g uid text s idx, s.awaitingUsername = false →
      s.awaitingPassword = none →
      normalize_text text ≠ normalize_text back_button_text →
      normalize_text text = normalize_text home_button_text →
      text_message_handler g uid text s idx = handle_home_action g s idx) ∧
    (∀ g uid text s idx, s.awaitingUsername = false →
      s.awaitingPassword = none →
      normalize_text text ≠ normalize_text back_button_text →
      normalize_text text ≠ normalize_text home_button_text →
      s.creatingConversation = true →
      text_message_handler g uid text s idx =
        handle_conversation_creation g text uid s idx) ∧
    (∀ g uid text s idx, s.awaitingUsername = false →
      s.awaitingPassword = none →
      normalize_text text ≠ normalize_text back_button_text →
      normalize_text text ≠ normalize_text home_button_text →
      s.creatingConversation = false → s.waitingForMessage = true →
      text_message_handler g uid text s idx =
        handle_send_message g text s idx) ∧
    (∀ g uid text s idx, s.awaitingUsername = false →
      s.awaitingPassword = none →
      normalize_text text ≠ normalize_text back_button_text →
      normalize_text text ≠ normalize_text home_button_text →
      s.creatingConversation = false → s.waitingForMessage = false →
      text_message_handler g uid text s idx =
        handle_navigation_or_fallback g uid (normalize_text text) s idx) := by
  refine ⟨?_, ?_, ?_, ?_, ?_, ?_, ?_⟩
  · intro g uid text s idx h1
    simp [text_message_handler, h1]
  · intro g uid text s idx u h1 h2
    simp [text_message_handler, h1, h2]
  · intro g uid text s idx h1 h2 h3
    have hb := beq_iff_eq.mpr h3
    simp [text_message_handler, h1, h2, hb]
  · intro g uid text s idx h1 h2 h3 h4
    have hb := beq_eq_false_iff_ne.mpr h3
    have hh := beq_iff_eq.mpr h4
    simp [text_message_handler, h1, h2, hb, hh]
  · intro g uid text s idx h1 h2 h3 h4 h5
    have hb := beq_eq_false_iff_ne.mpr h3
    have hh := beq_eq_false_iff_ne.mpr h4
    simp [text_message_handler, h1, h2, hb, hh, h5]
  · intro g uid text s idx h1 h2 h3 h4 h5 h6
    have hb := beq_eq_false_iff_ne.mpr h3
    have hh := beq_eq_false_iff_ne.mpr h4
    simp [text_message_handler, h1, h2, hb, hh, h5, h6]
  · intro g uid text s idx h1 h2 h3 h4 h5 h6
    have hb := beq_eq_false_iff_ne.mpr h3
    have hh := beq_eq_false_iff_ne.mpr h4
    simp [text_message_handler, h1, h2, hb, hh, h5, h6]

/-- Witness for C2 amended: with only `awaiting_password` set, text equal to
the literal home label is consumed as a password attempt. -/
theorem C2_witness :
    sPwdOnly.awaitingUsername = false ∧
    sPwdOnly.awaitingPassword = some "u" ∧
    text_message_handler gNone 7 "🏠 В начало" sPwdOnly [] =
      handle_password_input gNone "🏠 В начало" 7 sPwdOnly [] :=
  ⟨rfl, rfl,
   C2_amended_router_priority.2.1 gNone 7 "🏠 В начало" sPwdOnly [] "u" rfl rfl⟩

/-- C4 counterexample: with the stack topped by menu node 2 (whose keyboard
lists leaf 3), visiting the leaf leaves the session unchanged and renders
title+text with no markup — but then `Back` pops node 2 and renders node 1,
i.e. the *parent* of the menu that listed the leaf, not that menu itself as
the claim states. -/
theorem C4_counterexample :
    sAtMenu.navStack.getLast? = some (Action.node 2) ∧
    (navigate_content_node gTree 3 false sAtMenu []).session = sAtMenu ∧
    (navigate_content_node gTree 3 false sAtMenu []).outs =
      [Out.text "📌 T3\n\nX3"] ∧
    (handle_back_action gTree 7 sAtMenu []).session.navStack =
      [Action.node 1] ∧
    (handle_back_action gTree 7 sAtMenu []).outs =
      [Out.textMarkup "X1" (make_keyboard 1 rootNode true []).1] ∧
    (handle_back_action gTree 7 sAtMenu []).outs ≠
      [Out.textMarkup "X2" (make_keyboard 2 menuNode false []).1] := by
  refine ⟨by decide, by decide, by decide, by decide, by decide, by decide⟩

/-- C4 amended: applying the `NodeId` action for a node whose fetched data
has no child buttons leaves the user's entire step state unchanged and
renders the node's title and text with no markup; consequently leaf ids never
appear on the stack, and `Back` after visiting a leaf behaves exactly like
`Back` from the menu that listed it (returning to that menu's *parent*, or
resetting to root from a one-element stack), not like `Back` from the leaf. -/
theorem C4_amended_leaf_frame (g : Gateway) (uid node_id : Nat) (back : Bool)
    (s : Session) (idx : Index) (nd : Node)
    (hfetch : (g.getContentNode node_id).bind (fun r => r.node) = some nd)
    (hleaf : nd.buttons = []) :
    navigate_content_node g node_id back s idx =
      ⟨s, idx,
       [Out.text ("📌 " ++ nd.title.getD "" ++ "\n\n" ++ nd.text.getD "")]⟩ ∧
    handle_back_action g uid
        (navigate_content_node g node_id false s idx).session
        (navigate_content_node g node_id false s idx).idx =
      handle_back_action g uid s idx := by
  have hrender : ∀ b : Bool, navigate_content_node g node_id b s idx =
      ⟨s, idx,
       [Out.text ("📌 " ++ nd.title.getD "" ++ "\n\n" ++ nd.text.getD "")]⟩ := by
    intro b
    unfold navigate_content_node
    rw [hfetch]
    simp [hleaf]
  exact ⟨hrender back, by rw [hrender false]⟩

/-- Witness for C4 amended at leaf 3 of the concrete catalog. -/
theorem C4_witness :
    (gTree.getContentNode 3).bind (fun r => r.node) = some leafNode ∧
    leafNode.buttons = [] ∧
    navigate_content_node gTree 3 true sAtMenu [] =
      ⟨sAtMenu, [], [Out.text "📌 T3\n\nX3"]⟩ :=
  ⟨rfl, rfl, (C4_amended_leaf_frame gTree 7 3 true sAtMenu [] leafNode rfl rfl).1⟩

/-- C7 counterexample: a failed ticket-list fetch and a failed
message-list fetch are surfaced as the *empty-state* messages ("you have no
conversations" / "conversation is empty"), not as any generic "try later"
message — the source cannot distinguish a `None` result from an empty
list there. -/
theorem C7_counterexample :
    (show_user_conversations gNone false Session.initial []).outs =
      [Out.text "У вас нет бесед."] ∧
    ((show_user_conversations gNone false Session.initial []).outs.all
      (fun o => !isTryLaterOut o)) = true ∧
    (show_ticket_messages gNone 7 5 false Session.initial []).outs =
      [Out.text "Беседа пуста.",
       Out.textMarkup "✏️ Напишите новое сообщение:"
         [[back_button_text, home_button_text]]] ∧
    ((show_ticket_messages gNone 7 5 false Session.initial []).outs.all
      (fun o => !isTryLaterOut o)) = true := by
  refine ⟨by decide, by decide, by decide, by decide⟩

/-- C7 amended: every gateway failure is recovered locally — each call family
ends in a definite user-visible message and a well-defined step — but the
surfaced message is the generic "try later" one only for node fetches, sends,
ticket creation and similar; a failed *ticket list* or *ticket message list*
is surfaced as the corresponding empty-state message, indistinguishable from
a genuinely empty result. -/
theorem C7_amended_failures_recovered_locally :
    (∀ g s idx, g.getRootNode = none →
      reset_to_root_menu g s idx =
        ⟨s, idx, [Out.text "Не удалось загрузить главное меню."]⟩) ∧
    (∀ g node_id back s idx, g.getContentNode node_id = none →
      navigate_content_node g node_id back s idx =
        ⟨s, idx,
         [Out.text "Не удалось найти информацию по этому разделу. Попробуйте позже."]⟩) ∧
    (∀ g back s idx, g.getUserTickets = none →
      (show_user_conversations g back s idx).outs =
        [Out.text "У вас нет бесед."]) ∧
    (∀ g uid ticket_id back s idx, g.getTicketMessages ticket_id = none →
      (show_ticket_messages g uid ticket_id back s idx).outs =
        [Out.text "Беседа пуста.",
         Out.textMarkup "✏️ Напишите новое сообщение:"
           [[back_button_text, home_button_text]]]) ∧
    (∀ g text s idx t, s.activeTicketId = some t → t ≠ 0 →
      g.sendMessage t text = none →
      handle_send_message g text s idx =
        ⟨s, idx,
         [Out.text "Не удалось отправить сообщение. Попробуйте позже."]⟩) ∧
    (∀ g text uid s idx, g.createTicket uid true (pyStrip text) = none →
      handle_conversation_creation g text uid s idx =
        ⟨{s with creatingConversation := false}, idx,
         [Out.text "Не удалось создать беседу. Попробуйте позже."]⟩) ∧
    (∀ g text uid s idx,
      g.login (s.awaitingPassword.getD "") (pyStrip text) uid = none →
      handle_password_input g text uid s idx =
        ⟨{s with awaitingPassword := none}, idx,
         [Out.text "Неверные учетные данные. Попробуйте снова с /start."]⟩) := by
  refine ⟨?_, ?_, ?_, ?_, ?_, ?_, ?_⟩
  · intro g s idx h
    unfold reset_to_root_menu
    rw [h]
  · intro g node_id back s idx h
    unfold navigate_content_node
    rw [h]
    rfl
  · intro g back s idx h
    unfold show_user_conversations
    rw [h]
  · intro g uid ticket_id back s idx h
    unfold show_ticket_messages
    rw [h]
    rfl
  · intro g text s idx t hsome hne h
    unfold handle_send_message
    rw [hsome]
    have : pyTruthyOptNat (some t) = true := by
      simp [pyTruthyOptNat, hne]
    simp only [this, if_true, Option.getD]
    rw [h]
  · intro g text uid s idx h
    simp only [handle_conversation_creation, h]
  · intro g text uid s idx h
    simp only [handle_password_input, h]

/-- Witness for C7 amended on the everything-fails gateway. -/
theorem C7_witness :
    gNone.getRootNode = none ∧
    reset_to_root_menu gNone sAtMenu [] =
      ⟨sAtMenu, [], [Out.text "Не удалось загрузить главное меню."]⟩ ∧
    gNone.getUserTickets = none ∧
    (show_user_conversations gNone true sAtMenu []).outs =
      [Out.text "У вас нет бесед."] :=
  ⟨rfl, C7_amended_failures_recovered_locally.1 gNone sAtMenu [] rfl, rfl,
   C7_amended_failures_recovered_locally.2.2.1 gNone true sAtMenu [] rfl⟩

/-! ## Helper lemmas: the `make_keyboard` button loop -/

theorem pairUp_short {α : Type} (t : α) :
    ∀ cur : List α, cur.length ≤ 1 → pairUp (cur ++ [t]) = [cur ++ [t]]
  | [], _ => rfl
  | [_], _ => rfl
  | x :: y :: l, h => by
    exfalso
    simp only [List.length_cons] at h
    omega

theorem mem_pairUp_join {α : Type} :
    ∀ (l : List α) (a : α), a ∈ l → a ∈ (pairUp l).flatten
  | [], a, h => absurd h (by simp)
  | [_], a, h => by simpa [pairUp] using h
  | x :: y :: rest, a, h => by
    simp only [pairUp, List.flatten_cons]
    rcases List.mem_cons.mp h with rfl | h'
    · simp
    · rcases List.mem_cons.mp h' with rfl | h''
      · simp
      · exact List.mem_append_right _ (mem_pairUp_join rest a h'')

theorem kbLoop_cons (n : Nat) (bd : Button) (rest : List Button) (i : Nat)
    (cur : List String) (rows : List (List String)) (idx : Index) :
    kbLoop n (bd :: rest) i cur rows idx =
      match bd.next_node_id with
      | none => kbLoop n rest (i + 1) cur rows idx
      | some nid =>
        if (cur ++ [btnText bd]).length == 2 || i == n - 1 then
          kbLoop n rest (i + 1) [] (rows ++ [cur ++ [btnText bd]])
            (idxSet idx (normalize_text (btnText bd)) (Action.node nid))
        else
          kbLoop n rest (i + 1) (cur ++ [btnText bd]) rows
            (idxSet idx (normalize_text (btnText bd)) (Action.node nid)) :=
  rfl

theorem kbLoop_rows_eq (bs : List Button) :
    ∀ (n i : Nat) (cur : List String) (rows : List (List String))
      (idx : Index),
      (∀ b ∈ bs, b.next_node_id.isSome = true) →
      i + bs.length = n → cur.length ≤ 1 → bs ≠ [] →
      (kbLoop n bs i cur rows idx).1 =
        rows ++ pairUp (cur ++ bs.map btnText) := by
  induction bs with
  | nil => intro n i cur rows idx _ _ _ hne; exact absurd rfl hne
  | cons b rest ih =>
    intro n i cur rows idx hall hlen hcur _
    obtain ⟨nid, hnid⟩ := Option.isSome_iff_exists.mp (hall b (by simp))
    cases rest with
    | nil =>
      have hi : (i == n - 1) = true := beq_iff_eq.mpr (by
        simp only [List.length_cons, List.length_nil] at hlen
        omega)
      simp only [kbLoop, hnid, hi, Bool.or_true, if_true, List.map_cons,
        List.map_nil]
      rw [pairUp_short (btnText b) cur hcur]
    | cons b' rest' =>
      have htail : ∀ x ∈ b' :: rest', x.next_node_id.isSome = true :=
        fun x hx => hall x (List.mem_cons_of_mem b hx)
      have hlen' : (i + 1) + (b' :: rest').length = n := by
        simp only [List.length_cons] at hlen ⊢
        omega
      have hi : (i == n - 1) = false := beq_eq_false_iff_ne.mpr (by
        simp only [List.length_cons] at hlen
        omega)
      rcases cur with _ | ⟨x, _ | ⟨y, l⟩⟩
      · have hcond : ((([btnText b] : List String)).length == 2 ||
            (i == n - 1)) = false := by rw [hi, Bool.or_false]; rfl
        rw [kbLoop_cons]
        simp only [hnid, List.nil_append]
        rw [if_neg (by rw [hcond]; exact Bool.false_ne_true)]
        rw [ih n (i + 1) [btnText b] rows _ htail hlen' (by simp) (by simp)]
        simp
      · have hcond : ((([x, btnText b] : List String)).length == 2 ||
            (i == n - 1)) = true := rfl
        rw [kbLoop_cons]
        simp only [hnid, List.singleton_append]
        rw [if_pos hcond]
        rw [ih n (i + 1) [] (rows ++ [[x, btnText b]]) _ htail hlen'
          (by simp) (by simp)]
        simp [pairUp]
      · exfalso
        simp only [List.length_cons] at hcur
        omega

theorem loopIdxWrites_cons (b : Button) (rest : List Button) (idx : Index) :
    loopIdxWrites (b :: rest) idx =
      loopIdxWrites rest
        (match b.next_node_id with
         | some nid => idxSet idx (normalize_text (btnText b)) (Action.node nid)
         | none => idx) := by
  simp only [loopIdxWrites, List.foldl_cons]

theorem kbLoop_idx_eq (bs : List Button) :
    ∀ (n i : Nat) (cur : List String) (rows : List (List String))
      (idx : Index),
      (kbLoop n bs i cur rows idx).2.2 = loopIdxWrites bs idx := by
  induction bs with
  | nil => intro n i cur rows idx; rfl
  | cons b rest ih =>
    intro n i cur rows idx
    rw [loopIdxWrites_cons]
    cases hnid : b.next_node_id with
    | none =>
      simp only [kbLoop, hnid]
      exact ih n (i + 1) cur rows idx
    | some nid =>
      simp only [kbLoop, hnid]
      by_cases hcond : ((cur ++ [btnText b]).length == 2 || (i == n - 1)) = true
      · simp only [hcond, if_true]
        exact ih n (i + 1) [] _ _
      · simp only [Bool.not_eq_true] at hcond
        simp only [hcond, Bool.false_eq_true, if_false]
        exact ih n (i + 1) _ rows _

theorem lookup_loopIdxWrites_skip (bs : List Button) :
    ∀ (idx : Index) (k : String),
      (∀ b ∈ bs, k ≠ normalize_text (btnText b)) →
      List.lookup k (loopIdxWrites bs idx) = List.lookup k idx := by
  induction bs with
  | nil => intro idx k _; rfl
  | cons b rest ih =>
    intro idx k h
    rw [loopIdxWrites_cons]
    cases hnid : b.next_node_id with
    | none => exact ih idx k (fun b' hb' => h b' (List.mem_cons_of_mem b hb'))
    | some nid =>
      rw [ih _ k (fun b' hb' => h b' (List.mem_cons_of_mem b hb'))]
      have hk : (k == normalize_text (btnText b)) = false :=
        beq_eq_false_iff_ne.mpr (h b (List.mem_cons_self b rest))
      simp [idxSet, List.lookup, hk]

theorem lookup_loopIdxWrites_mem (bs : List Button) :
    ∀ (idx : Index) (b : Button), b ∈ bs →
      b.next_node_id.isSome = true →
      (bs.map (fun b' => normalize_text (btnText b'))).Nodup →
      List.lookup (normalize_text (btnText b)) (loopIdxWrites bs idx) =
        (b.next_node_id).map Action.node := by
  induction bs with
  | nil => intro idx b hb _ _; exact absurd hb (by simp)
  | cons b0 rest ih =>
    intro idx b hb hv hnd
    rw [List.map_cons, List.nodup_cons] at hnd
    rcases List.mem_cons.mp hb with rfl | hmem
    · obtain ⟨nid, hnid⟩ := Option.isSome_iff_exists.mp hv
      rw [loopIdxWrites_cons]
      simp only [hnid]
      rw [lookup_loopIdxWrites_skip rest _ _
        (fun b' hb' hEq => hnd.1 (by rw [hEq]; exact List.mem_map_of_mem _ hb'))]
      simp [idxSet, List.lookup, hnid]
    · rw [loopIdxWrites_cons]
      cases hnid : b0.next_node_id with
      | none => exact ih idx b hmem hv hnd.2
      | some nid0 => exact ih _ b hmem hv hnd.2

/-- C10 counterexample: the waiting/active-ticket invariant does hold, yet
the "no selected conversation" fallback is still reachable from the specified
flows — opening ticket 0 arms send mode with `activeTicketId = some 0`, and
the send handler's `if ticket_id:` truthiness test then takes the fallback
branch despite the entry being present. -/
theorem C10_counterexample :
    sTicket0.waitingForMessage = true ∧
    sTicket0.activeTicketId = some 0 ∧
    (handle_send_message gNone "спасибо" sTicket0 []).outs =
      [Out.text "Нет выбранной беседы. Выберите её из списка."] := by
  refine ⟨by decide, by decide, by decide⟩

/-- C10 amended: every operation (the text router, hence every handler, and
`/start`) preserves the invariant that a user in the waiting-for-message set
has an active-ticket-id entry; opening a ticket view sets both together and
`Back`/`Home` re-establish the invariant (Home leaves both cleared); the
send-message fallback branch is unreachable whenever the armed ticket id is
nonzero — a zero id, although present, fails the source's integer-truthiness
test and takes the fallback. -/
theorem C10_amended_waiting_has_ticket :
    (∀ g uid text s idx, ticketInv s →
      ticketInv (text_message_handler g uid text s idx).session) ∧
    (∀ s idx, ticketInv s → ticketInv (start_handler s idx).session) ∧
    (∀ g uid ticket_id back s idx,
      (show_ticket_messages g uid ticket_id back s idx).session.waitingForMessage
          = true ∧
      (show_ticket_messages g uid ticket_id back s idx).session.activeTicketId
          = some ticket_id) ∧
    (∀ g uid s idx, ticketInv (handle_back_action g uid s idx).session) ∧
    (∀ g s idx,
      (handle_home_action g s idx).session.waitingForMessage = false ∧
      (handle_home_action g s idx).session.activeTicketId = none) ∧
    (∀ g text s idx t, s.waitingForMessage = true →
      s.activeTicketId = some t → t ≠ 0 →
      (handle_send_message g text s idx).outs ≠
        [Out.text "Нет выбранной беседы. Выберите её из списка."]) := by
  refine ⟨router_inv, ?_, ?_, backAction_inv, ?_, ?_⟩
  · intro s idx h
    exact ticketInv_flagsEq rfl rfl h
  · intro g uid ticket_id back s idx
    unfold show_ticket_messages
    cases back <;> simp
  · intro g s idx
    have := resetRoot_flags g
      {s with waitingForMessage := false, activeTicketId := none} idx
    unfold handle_home_action
    exact ⟨this.1, this.2⟩
  · intro g text s idx t hw hsome hne
    unfold handle_send_message
    rw [hsome]
    have hp : pyTruthyOptNat (some t) = true := by simp [pyTruthyOptNat, hne]
    simp only [hp, if_true]
    cases hr : g.sendMessage ((some t).getD 0) text with
    | none => simp
    | some r =>
      by_cases hs : (r.status == some "success") = true
      · simp [hs]
      · simp only [Bool.not_eq_true] at hs
        simp [hs]

/-- Witness for C10 amended at a concrete armed, nonzero-ticket session. -/
theorem C10_witness :
    ticketInv sRootOnly ∧
    ticketInv (text_message_handler gTree 7 "hi" sRootOnly []).session ∧
    (show_ticket_messages gTree 7 42 false sRootOnly []).session.activeTicketId
        = some 42 ∧
    (handle_send_message gTree "спасибо"
        ⟨[Action.node 1], true, some 42, false, false, none⟩ []).outs ≠
      [Out.text "Нет выбранной беседы. Выберите её из списка."] :=
  ⟨fun h => absurd h (by decide),
   C10_amended_waiting_has_ticket.1 gTree 7 "hi" sRootOnly []
     (fun h => absurd h (by decide)),
   (C10_amended_waiting_has_ticket.2.2.1 gTree 7 42 false sRootOnly []).2,
   C10_amended_waiting_has_ticket.2.2.2.2.2 gTree "спасибо"
     ⟨[Action.node 1], true, some 42, false, false, none⟩ [] 42 rfl rfl
     (by decide)⟩

/-- C9 counterexample: (1) in a node whose last button has no
`next_node_id`, the valid button "A" is indexed but *dropped from the markup*
(the pending row is never flushed), so not every child button appears two per
row; (2) with two buttons sharing a normalized label, the index maps the
label to the *last* button's id, not each button's own; (3) a child label
equal to the fixed support label is clobbered by the fixed entry. -/
theorem C9_counterexample :
    ((make_keyboard 9 dropNode true []).1 = [[support_button_text]] ∧
      ¬ "A" ∈ (make_keyboard 9 dropNode true []).1.flatten ∧
      List.lookup (normalize_text "A") (make_keyboard 9 dropNode true []).2 =
        some (Action.node 1)) ∧
    (List.lookup (normalize_text "X") (make_keyboard 9 dupNode true []).2 =
      some (Action.node 2)) ∧
    (List.lookup (normalize_text support_button_text)
        (make_keyboard 9 clashNode true []).2 = some Action.supportMenu) := by
  refine ⟨⟨by decide, by decide, by decide⟩, by decide, by decide⟩

/-- C9 amended: for every content node all of whose child buttons carry a
`next_node_id`, with pairwise-distinct normalized labels that also avoid the
fixed support/back/home labels, `make_keyboard` lays the child buttons out
two per row with at most one dangling last button, every child button appears
in the markup, and the resulting index maps each button's normalized label to
its `next_node_id`.  (Without those provisos the source drops an unflushed
pending button, and later index writes overwrite earlier ones.) -/
theorem C9_amended_keyboard_layout (current_node_id : Nat) (nd : Node)
    (is_root : Bool) (idx : Index)
    (hall : ∀ b ∈ nd.buttons, b.next_node_id.isSome = true)
    (hdist : (nd.buttons.map (fun b' => normalize_text (btnText b'))).Nodup)
    (hfix : ∀ b ∈ nd.buttons,
      normalize_text (btnText b) ≠ normalize_text support_button_text ∧
      normalize_text (btnText b) ≠ normalize_text back_button_text ∧
      normalize_text (btnText b) ≠ normalize_text home_button_text) :
    (make_keyboard current_node_id nd is_root idx).1 =
      pairUp (nd.buttons.map btnText) ++ [[support_button_text]] ++
        (if is_root then [] else [[back_button_text, home_button_text]]) ∧
    (∀ b ∈ nd.buttons,
      btnText b ∈ (make_keyboard current_node_id nd is_root idx).1.flatten) ∧
    (∀ b ∈ nd.buttons,
      List.lookup (normalize_text (btnText b))
          (make_keyboard current_node_id nd is_root idx).2 =
        (b.next_node_id).map Action.node) := by
  have hrows : (kbLoop nd.buttons.length nd.buttons 0 [] [] idx).1 =
      pairUp (nd.buttons.map btnText) := by
    by_cases hbs : nd.buttons = []
    · rw [hbs]; rfl
    · have h := kbLoop_rows_eq nd.buttons nd.buttons.length 0 [] [] idx hall
        (Nat.zero_add _) (by simp) hbs
      simpa using h
  have hloopidx : (kbLoop nd.buttons.length nd.buttons 0 [] [] idx).2.2 =
      loopIdxWrites nd.buttons idx :=
    kbLoop_idx_eq nd.buttons nd.buttons.length 0 [] [] idx
  have hone : (make_keyboard current_node_id nd is_root idx).1 =
      pairUp (nd.buttons.map btnText) ++ [[support_button_text]] ++
        (if is_root then [] else [[back_button_text, home_button_text]]) := by
    cases is_root with
    | true => simp [make_keyboard, hrows]
    | false => simp [make_keyboard, hrows]
  refine ⟨hone, ?_, ?_⟩
  · intro b hb
    rw [hone]
    have hmem : btnText b ∈ (pairUp (nd.buttons.map btnText)).flatten :=
      mem_pairUp_join _ _ (List.mem_map_of_mem _ hb)
    rw [List.flatten_append, List.flatten_append]
    exact List.mem_append_left _ (List.mem_append_left _ hmem)
  · intro b hb
    have h1 : (normalize_text (btnText b) ==
        normalize_text support_button_text) = false :=
      beq_eq_false_iff_ne.mpr (hfix b hb).1
    have h2 : (normalize_text (btnText b) ==
        normalize_text back_button_text) = false :=
      beq_eq_false_iff_ne.mpr (hfix b hb).2.1
    have h3 : (normalize_text (btnText b) ==
        normalize_text home_button_text) = false :=
      beq_eq_false_iff_ne.mpr (hfix b hb).2.2
    cases is_root with
    | true =>
      simp only [make_keyboard, if_true, idxSet, List.lookup, h1]
      rw [hloopidx]
      exact lookup_loopIdxWrites_mem nd.buttons idx b hb (hall b hb) hdist
    | false =>
      simp only [make_keyboard, Bool.false_eq_true, if_false, idxSet,
        List.lookup, h1, h2, h3]
      rw [hloopidx]
      exact lookup_loopIdxWrites_mem nd.buttons idx b hb (hall b hb) hdist

/-- Witness for C9 amended at a three-button node. -/
theorem C9_witness :
    (make_keyboard 4 niceNode false []).1 =
      pairUp (niceNode.buttons.map btnText) ++ [[support_button_text]] ++
        (if false then [] else [[back_button_text, home_button_text]]) ∧
    List.lookup (normalize_text "Кнопка А")
        (make_keyboard 4 niceNode false []).2 = some (Action.node 10) :=
  ⟨(C9_amended_keyboard_layout 4 niceNode false [] (by decide) (by decide)
      (by decide)).1,
   by
     have h := (C9_amended_keyboard_layout 4 niceNode false [] (by decide)
        (by decide) (by decide)).2.2 ⟨some "Кнопка А", some 10⟩ (by decide)
     simpa using h⟩

end TGBot
